import Mathlib

/-!
Verification of the chat-turn orchestration core of the Arogya Mitra backend
(`src/main.py`). The orchestrator (`chat`, here `handle_turn`) and the user
resolver (`get_or_create_user`) are embedded as pure functions over an
environment of collaborator oracles (storage and AI). Each collaborator call
is recorded in an ordered event trace, so that claims about which calls are
made, and in which order, become properties of the trace.
-/

namespace ArogyaMitra

/-- Modelled from the spec: the `User` record of `models.schemas` (the schema
module is an external collaborator, not part of the orchestration core). A
user carries the stable identifier (stored under the legacy `phone_number`
field) plus free-form optional profile attributes, all defaulting to empty. -/
structure User where
  phone_number : String
  attributes : List (String × String) := []
deriving Repr, DecidableEq

/-- Modelled from the spec: the `ChatMessage` record of `models.schemas`. A
chat message belongs to one user identifier, has a sender tag (`"user"` or
`"bot"`) and message text, mirroring the fields used at the call sites in
`src/main.py`. -/
structure ChatMessage where
  phone_number : String
  sender : String
  message_text : String
deriving Repr, DecidableEq

/-- The request body of `POST /api/chat` (`ChatRequest` in `src/main.py`). -/
structure ChatRequest where
  user_id : String
  message : String
deriving Repr, DecidableEq

/-- The response body of `POST /api/chat` (`ChatResponse` in `src/main.py`). -/
structure ChatResponse where
  response : String
deriving Repr, DecidableEq

/-- How a turn can fail: an explicitly raised `HTTPException` (status code and
detail, a client-visible error), or an uncaught collaborator exception that
propagates out of the handler (surfaced by the framework as a server error). -/
inductive Err where
  | http (status : Nat) (detail : String)
  | exn (e : String)
deriving Repr, DecidableEq

/-- One recorded collaborator call: a storage read or write, or the AI call. -/
inductive Event where
  | getUser (id : String)
  | createOrUpdateUser (u : User)
  | getChatHistory (id : String)
  | getAiResponse (msg : String) (profile : User) (history : List ChatMessage)
  | saveChatMessage (m : ChatMessage)
deriving Repr, DecidableEq

/-- Whether an event is an AI-generation call. -/
def Event.isGen : Event → Bool
  | .getAiResponse _ _ _ => true
  | _ => false

/-- Whether an event is a user lookup (`db_service.get_user`). -/
def Event.isGetUser : Event → Bool
  | .getUser _ => true
  | _ => false

/-- Whether an event is a user write (`db_service.create_or_update_user`). -/
def Event.isCreateUser : Event → Bool
  | .createOrUpdateUser _ => true
  | _ => false

/-- Whether an event is a history fetch (`db_service.get_chat_history`). -/
def Event.isHistory : Event → Bool
  | .getChatHistory _ => true
  | _ => false

/-- Whether an event is a chat-message write (`db_service.save_chat_message`). -/
def Event.isSave : Event → Bool
  | .saveChatMessage _ => true
  | _ => false

/-- The collaborator environment: the outcome each external call would have
during this turn. `Except String` models a call that can raise (the `String`
is the exception message). `get_user` returns the deserialized stored profile
or `none` when absent. -/
structure Env where
  get_user : String → Except String (Option User)
  create_or_update_user : User → Except String Unit
  get_chat_history : String → Except String (List ChatMessage)
  get_ai_response : String → User → List ChatMessage → Except String String
  save_chat_message : ChatMessage → Except String Unit

/-- The fixed crisis-keyword list `CRITICAL_KEYWORDS` of `src/main.py`. -/
def CRITICAL_KEYWORDS : List String :=
  ["suicide", "kill myself", "want to die", "heart attack", "chest pain",
   "can\x27t breathe", "unconscious", "poison", "accident", "bleeding heavily"]

/-- The fixed safety message `CRITICAL_RESPONSE_MESSAGE` of `src/main.py`. -/
def CRITICAL_RESPONSE_MESSAGE : String :=
  "This seems like a critical situation. Please contact emergency services " ++
  "immediately by calling 108. This is an AI assistant and not a substitute " ++
  "for a medical professional."

/-- List-level prefix test, structural so that concrete instances reduce. -/
def startsWithL : List Char → List Char → Bool
  | _, [] => true
  | [], _ :: _ => false
  | c :: s, p :: ps => c = p && startsWithL s ps

/-- List-level substring containment: some suffix starts with the pattern. -/
def containsL : List Char → List Char → Bool
  | [], pat => pat.isEmpty
  | c :: rest, pat => startsWithL (c :: rest) pat || containsL rest pat

/-- Python `str.lower()`: lower-case each character (ASCII case mapping, which
covers every configured keyword). -/
def pyLower (s : String) : String := ⟨s.data.map Char.toLower⟩

/-- Python `str.strip()`: remove leading and trailing whitespace. -/
def pyStrip (s : String) : String :=
  ⟨((s.data.dropWhile Char.isWhitespace).reverse.dropWhile
      Char.isWhitespace).reverse⟩

/-- Python substring containment `pat in s`. -/
def strContains (s pat : String) : Bool := containsL s.data pat.data

/-- The safety check of `src/main.py` line 109:
`any(k in message.lower() for k in CRITICAL_KEYWORDS)`. -/
def isCritical (message : String) : Bool :=
  CRITICAL_KEYWORDS.any fun k => strContains (pyLower message) k

/-- `get_or_create_user` of `src/main.py` (lines 67–76): look the user up; if
found return the deserialized profile unchanged, otherwise build a profile
carrying only the identifier, request its persistence, and return it. A
storage exception propagates (`Except.error`). The trace records the calls
made. -/
def get_or_create_user (env : Env) (user_id : String) :
    Except String User × List Event :=
  match env.get_user user_id with
  | .error e => (.error e, [.getUser user_id])
  | .ok (some existing) => (.ok existing, [.getUser user_id])
  | .ok none =>
    let user : User := { phone_number := user_id }
    match env.create_or_update_user user with
    | .error e => (.error e, [.getUser user_id, .createOrUpdateUser user])
    | .ok _ => (.ok user, [.getUser user_id, .createOrUpdateUser user])

/-- The best-effort persistence block of `src/main.py` (lines 126–134): save
the user message, then the bot message, inside one `try`/`except` that logs
and swallows any exception. If the first save raises, the second is never
attempted. Returns the trace of attempted saves. -/
def persistStep (env : Env) (user_id message ai_text : String) : List Event :=
  let userMsg : ChatMessage := ⟨user_id, "user", message⟩
  match env.save_chat_message userMsg with
  | .error _ => [.saveChatMessage userMsg]
  | .ok _ => [.saveChatMessage userMsg, .saveChatMessage ⟨user_id, "bot", ai_text⟩]

/-- The `chat` endpoint handler of `src/main.py` (lines 89–136): trim and
validate the inputs, run the safety check, otherwise resolve the user, fetch
history and call the AI, then best-effort persist both messages and return
the response. Returns the outcome paired with the ordered trace of
collaborator calls. -/
def handle_turn (env : Env) (payload : ChatRequest) :
    Except Err ChatResponse × List Event :=
  let user_id := pyStrip payload.user_id
  let message := pyStrip payload.message
  if user_id = "" then (.error (.http 400 "user_id is required."), [])
  else if message = "" then (.error (.http 400 "message cannot be empty."), [])
  else if isCritical message then
    let evs := persistStep env user_id message CRITICAL_RESPONSE_MESSAGE
    (.ok ⟨CRITICAL_RESPONSE_MESSAGE⟩, evs)
  else
    match get_or_create_user env user_id with
    | (.error e, evs) => (.error (.exn e), evs)
    | (.ok user_profile, evs1) =>
      match env.get_chat_history user_id with
      | .error e => (.error (.exn e), evs1 ++ [.getChatHistory user_id])
      | .ok history =>
        match env.get_ai_response message user_profile history with
        | .error e =>
          (.error (.exn e),
           evs1 ++ [.getChatHistory user_id,
                    .getAiResponse message user_profile history])
        | .ok ai_response_text =>
          (.ok ⟨ai_response_text⟩,
           evs1 ++ [.getChatHistory user_id,
                    .getAiResponse message user_profile history] ++
           persistStep env user_id message ai_response_text)

/-- Modelled from the spec: the storage collaborator's state — a user table
keyed by identifier (most recent write first) and the append-only chat-message
log. The physical schema is owned by the external storage client. -/
structure Store where
  users : List (String × User)
  messages : List ChatMessage
deriving Repr, DecidableEq

/-- Modelled from the spec: `get_user` against the reference store — the most
recently written profile for the identifier, or `none` when absent. -/
def Store.getUser (s : Store) (id : String) : Option User :=
  (s.users.find? fun p => p.1 = id).map fun p => p.2

/-- Modelled from the spec: `create_or_update_user` against the reference
store — the new profile shadows any older entry for the same identifier. -/
def Store.putUser (s : Store) (u : User) : Store :=
  { s with users := (u.phone_number, u) :: s.users }

/-- Modelled from the spec: `save_chat_message` against the reference store —
append to the message log. -/
def Store.appendMessage (s : Store) (m : ChatMessage) : Store :=
  { s with messages := s.messages ++ [m] }

/-- Replay one traced write against the reference store; reads change
nothing. -/
def applyEvent (s : Store) : Event → Store
  | .createOrUpdateUser u => s.putUser u
  | .saveChatMessage m => s.appendMessage m
  | _ => s

/-- Replay a trace of collaborator calls against the reference store. -/
def applyEvents (s : Store) (evs : List Event) : Store :=
  evs.foldl applyEvent s

/-- Modelled from the spec: a collaborator environment backed by the reference
store, with every storage call succeeding; the AI collaborator is the oracle
`ai`. History is the per-identifier message log, oldest first. -/
def envOfStore (s : Store) (ai : String → User → List ChatMessage →
    Except String String) : Env where
  get_user := fun id => .ok (s.getUser id)
  create_or_update_user := fun _ => .ok ()
  get_chat_history := fun id =>
    .ok (s.messages.filter fun m => m.phone_number = id)
  get_ai_response := ai
  save_chat_message := fun _ => .ok ()

/-- A stub AI collaborator returning a fixed reply, for concrete runs. -/
def aiStub : String → User → List ChatMessage → Except String String :=
  fun _ _ _ => .ok "Try more fiber."

/-- A fully successful collaborator environment, for concrete runs. -/
def envOk : Env where
  get_user := fun _ => .ok none
  create_or_update_user := fun _ => .ok ()
  get_chat_history := fun _ => .ok []
  get_ai_response := aiStub
  save_chat_message := fun _ => .ok ()

/-- An environment whose chat-message writes always raise. -/
def envSaveFail : Env :=
  { envOk with save_chat_message := fun _ => .error "db down" }

/-- An environment whose AI call always raises. -/
def envGenFail : Env :=
  { envOk with get_ai_response := fun _ _ _ => .error "gen down" }

/-! ### Trace-shape lemmas -/

/-- The persistence block attempts the user-message write first and, only when
it succeeds, the bot-message write; these are the only two possible traces. -/
theorem persistStep_shape (env : Env) (uid msg txt : String) :
    persistStep env uid msg txt = [.saveChatMessage ⟨uid, "user", msg⟩] ∨
    persistStep env uid msg txt =
      [.saveChatMessage ⟨uid, "user", msg⟩,
       .saveChatMessage ⟨uid, "bot", txt⟩] := by
  unfold persistStep
  cases h : env.save_chat_message ⟨uid, "user", msg⟩ <;> simp [h]

/-- Every event recorded by the persistence block is a chat-message write. -/
theorem persistStep_all_save (env : Env) (uid msg txt : String) :
    ∀ e ∈ persistStep env uid msg txt, e.isSave = true := by
  intro e he
  rcases persistStep_shape env uid msg txt with h | h <;> rw [h] at he <;>
      simp only [List.mem_cons, List.mem_singleton, List.not_mem_nil,
        or_false] at he
  · subst he; rfl
  · rcases he with rfl | rfl <;> rfl

/-- The user resolver records only user-table calls: never a history fetch, an
AI call, or a chat-message write. -/
theorem get_or_create_user_events (env : Env) (uid : String) :
    ∀ e ∈ (get_or_create_user env uid).2,
      e.isSave = false ∧ e.isHistory = false ∧ e.isGen = false := by
  unfold get_or_create_user
  cases h : env.get_user uid with
  | error e => simp [Event.isSave, Event.isHistory, Event.isGen]
  | ok o =>
    cases o with
    | none =>
      cases h2 : env.create_or_update_user { phone_number := uid } <;>
        simp [h2, Event.isSave, Event.isHistory, Event.isGen]
    | some u => simp [Event.isSave, Event.isHistory, Event.isGen]

/-- A chat-message write is not a user lookup, user write, history fetch or
AI call. -/
theorem isSave_not_others (e : Event) (h : e.isSave = true) :
    e.isGen = false ∧ e.isGetUser = false ∧ e.isCreateUser = false ∧
      e.isHistory = false := by
  cases e <;> simp_all [Event.isSave, Event.isGen, Event.isGetUser,
    Event.isCreateUser, Event.isHistory]

/-! ### The claims -/

/-- **C1**: for every request whose trimmed identifier and trimmed message are
non-empty, if the message contains a configured crisis keyword
(case-insensitively), `handle_turn` returns exactly the fixed safety message
and the trace contains no AI-generation call, no user lookup and no history
fetch. -/
theorem C1_critical_bypass (env : Env) (payload : ChatRequest)
    (hid : pyStrip payload.user_id ≠ "")
    (hmsg : pyStrip payload.message ≠ "")
    (hcrit : isCritical (pyStrip payload.message) = true) :
    (handle_turn env payload).1 = .ok ⟨CRITICAL_RESPONSE_MESSAGE⟩ ∧
    ∀ e ∈ (handle_turn env payload).2,
      e.isGen = false ∧ e.isGetUser = false ∧ e.isHistory = false := by
  constructor
  · simp [handle_turn, hid, hmsg, hcrit]
  · intro e he
    simp only [handle_turn, hid, hmsg, hcrit, if_false, if_true, ite_false,
      ite_true, ne_eq, not_false_eq_true] at he
    have hs := persistStep_all_save env (pyStrip payload.user_id)
      (pyStrip payload.message) CRITICAL_RESPONSE_MESSAGE e he
    exact ⟨(isSave_not_others e hs).1, (isSave_not_others e hs).2.1,
      (isSave_not_others e hs).2.2.2⟩

/-- **C1** witness: the spec example — identifier `"u1"`, message
`"I have chest pain"`. -/
theorem C1_witness :
    (handle_turn envOk ⟨"u1", "I have chest pain"⟩).1 =
      .ok ⟨CRITICAL_RESPONSE_MESSAGE⟩ ∧
    ∀ e ∈ (handle_turn envOk ⟨"u1", "I have chest pain"⟩).2,
      e.isGen = false ∧ e.isGetUser = false ∧ e.isHistory = false :=
  C1_critical_bypass envOk ⟨"u1", "I have chest pain"⟩ (by decide) (by decide)
    (by decide)

/-- **C3**: an identifier or message that is empty after trimming yields a
400 validation error (a client error) and an empty trace — no collaborator
call at all. -/
theorem C3_validation (env : Env) (payload : ChatRequest)
    (h : pyStrip payload.user_id = "" ∨ pyStrip payload.message = "") :
    ((handle_turn env payload).1 =
        .error (.http 400 "user_id is required.") ∨
     (handle_turn env payload).1 =
        .error (.http 400 "message cannot be empty.")) ∧
    (handle_turn env payload).2 = [] := by
  rcases h with h | h
  · simp [handle_turn, h]
  · by_cases h2 : pyStrip payload.user_id = ""
    · simp [handle_turn, h2]
    · simp [handle_turn, h, h2]

/-- **C3** witness: a whitespace-only identifier is rejected with no calls. -/
theorem C3_witness :
    ((handle_turn envOk ⟨"   ", "hello"⟩).1 =
        .error (.http 400 "user_id is required.") ∨
     (handle_turn envOk ⟨"   ", "hello"⟩).1 =
        .error (.http 400 "message cannot be empty.")) ∧
    (handle_turn envOk ⟨"   ", "hello"⟩).2 = [] :=
  C3_validation envOk ⟨"   ", "hello"⟩ (Or.inl (by decide))

/-- **C2**: on a non-critical turn whose collaborators succeed, the text
returned by `handle_turn` is exactly the text the AI collaborator returns for
the triple (trimmed message, resolved profile, fetched history). -/
theorem C2_response_is_ai_text (env : Env) (payload : ChatRequest)
    (profile : User) (history : List ChatMessage) (txt : String)
    (hid : pyStrip payload.user_id ≠ "")
    (hmsg : pyStrip payload.message ≠ "")
    (hcrit : isCritical (pyStrip payload.message) = false)
    (hres : (get_or_create_user env (pyStrip payload.user_id)).1 = .ok profile)
    (hhist : env.get_chat_history (pyStrip payload.user_id) = .ok history)
    (hai : env.get_ai_response (pyStrip payload.message) profile history =
      .ok txt) :
    (handle_turn env payload).1 = .ok ⟨txt⟩ := by
  rcases h : get_or_create_user env (pyStrip payload.user_id) with ⟨res, evs⟩
  rw [h] at hres
  simp only at hres
  subst hres
  simp [handle_turn, hid, hmsg, hcrit, h, hhist, hai]

/-- **C2** witness: the spec example — the stub AI returns
`"Try more fiber."` for a diabetes question and the handler echoes it. -/
theorem C2_witness :
    (handle_turn envOk ⟨"u1", "What foods help with diabetes?"⟩).1 =
      .ok ⟨"Try more fiber."⟩ :=
  C2_response_is_ai_text envOk ⟨"u1", "What foods help with diabetes?"⟩
    { phone_number := "u1" } [] "Try more fiber." (by decide) (by decide)
    (by decide) rfl rfl rfl

/-- When the user-message write raises, the bot-message write is never
attempted: the persistence trace is the single user-message write. -/
theorem persistStep_user_fail (env : Env) (uid msg txt e : String)
    (h : env.save_chat_message ⟨uid, "user", msg⟩ = .error e) :
    persistStep env uid msg txt = [.saveChatMessage ⟨uid, "user", msg⟩] := by
  simp [persistStep, h]

/-- When the user-message write succeeds, both writes are attempted, user
message first. -/
theorem persistStep_user_ok (env : Env) (uid msg txt : String)
    (h : env.save_chat_message ⟨uid, "user", msg⟩ = .ok ()) :
    persistStep env uid msg txt =
      [.saveChatMessage ⟨uid, "user", msg⟩,
       .saveChatMessage ⟨uid, "bot", txt⟩] := by
  simp [persistStep, h]

/-- The outcome component of `handle_turn` never depends on the behaviour of
the chat-message write collaborator: the persistence block swallows its
exceptions. -/
theorem handle_turn_fst_save_independent (env : Env)
    (sv : ChatMessage → Except String Unit) (payload : ChatRequest) :
    (handle_turn { env with save_chat_message := sv } payload).1 =
      (handle_turn env payload).1 := by
  by_cases h1 : pyStrip payload.user_id = ""
  · simp [handle_turn, h1]
  by_cases h2 : pyStrip payload.message = ""
  · simp [handle_turn, h1, h2]
  by_cases h3 : isCritical (pyStrip payload.message) = true
  · simp [handle_turn, h1, h2, h3]
  rcases hg : get_or_create_user env (pyStrip payload.user_id) with ⟨res, evs⟩
  have hg2 : get_or_create_user { env with save_chat_message := sv }
      (pyStrip payload.user_id) = (res, evs) := hg
  cases res with
  | error e => simp [handle_turn, h1, h2, h3, hg, hg2]
  | ok profile =>
    cases hh : env.get_chat_history (pyStrip payload.user_id) with
    | error e => simp [handle_turn, h1, h2, h3, hg, hg2, hh]
    | ok history =>
      cases ha : env.get_ai_response (pyStrip payload.message) profile
          history with
      | error e => simp [handle_turn, h1, h2, h3, hg, hg2, hh, ha]
      | ok txt => simp [handle_turn, h1, h2, h3, hg, hg2, hh, ha]

/-- **C5**: if the turn computed a response text, then with a persistence
collaborator that raises on every chat-message write the handler still
returns that same text — no exception propagates to the caller. -/
theorem C5_persistence_best_effort (env : Env) (payload : ChatRequest)
    (txt e : String)
    (hok : (handle_turn env payload).1 = .ok ⟨txt⟩) :
    (handle_turn { env with save_chat_message := fun _ => .error e }
        payload).1 = .ok ⟨txt⟩ :=
  (handle_turn_fst_save_independent env (fun _ => .error e) payload).trans hok

/-- **C5** witness: a turn whose two writes both raise still returns the stub
AI's text. -/
theorem C5_witness :
    (handle_turn { envOk with save_chat_message := fun _ => .error "db down" }
        ⟨"u1", "What foods help with diabetes?"⟩).1 =
      .ok ⟨"Try more fiber."⟩ :=
  C5_persistence_best_effort envOk ⟨"u1", "What foods help with diabetes?"⟩
    "Try more fiber." "db down" rfl

/-- **C8**: on a non-critical turn where resolution and history succeed but
the AI collaborator raises, the whole turn fails with the propagated
exception (surfaced by the framework as a server error), no response is
returned, and no chat message is written. -/
theorem C8_generation_failure_fatal (env : Env) (payload : ChatRequest)
    (profile : User) (history : List ChatMessage) (e : String)
    (hid : pyStrip payload.user_id ≠ "")
    (hmsg : pyStrip payload.message ≠ "")
    (hcrit : isCritical (pyStrip payload.message) = false)
    (hres : (get_or_create_user env (pyStrip payload.user_id)).1 = .ok profile)
    (hhist : env.get_chat_history (pyStrip payload.user_id) = .ok history)
    (hai : env.get_ai_response (pyStrip payload.message) profile history =
      .error e) :
    (handle_turn env payload).1 = .error (.exn e) ∧
    ∀ ev ∈ (handle_turn env payload).2, ev.isSave = false := by
  rcases h : get_or_create_user env (pyStrip payload.user_id) with ⟨res, evs⟩
  rw [h] at hres
  simp only at hres
  subst hres
  constructor
  · simp [handle_turn, hid, hmsg, hcrit, h, hhist, hai]
  · intro ev hev
    simp [handle_turn, hid, hmsg, hcrit, h, hhist, hai] at hev
    rcases hev with hev | hev | hev
    · exact (get_or_create_user_events env (pyStrip payload.user_id) ev
        (by rw [h]; exact hev)).1
    · subst hev; rfl
    · subst hev; rfl

/-- **C8** witness: a failing AI stub makes the turn fail with the propagated
exception and leaves no chat-message write in the trace. -/
theorem C8_witness :
    (handle_turn envGenFail ⟨"u1", "hello"⟩).1 = .error (.exn "gen down") ∧
    ∀ ev ∈ (handle_turn envGenFail ⟨"u1", "hello"⟩).2, ev.isSave = false :=
  C8_generation_failure_fatal envGenFail ⟨"u1", "hello"⟩
    { phone_number := "u1" } [] "gen down" (by decide) (by decide) (by decide)
    rfl rfl rfl

/-- **C10**: on a turn that reaches persistence (i.e. a response was
computed), if the user-message write raises then the only chat-message write
in the trace is that user-message write — the bot-message write is never
attempted, while the response is still the computed text. -/
theorem C10_bot_write_skipped (env : Env) (payload : ChatRequest)
    (txt e : String)
    (hok : (handle_turn env payload).1 = .ok ⟨txt⟩)
    (hfail : env.save_chat_message
        ⟨pyStrip payload.user_id, "user", pyStrip payload.message⟩ =
      .error e) :
    (handle_turn env payload).2.filter Event.isSave =
      [.saveChatMessage
        ⟨pyStrip payload.user_id, "user", pyStrip payload.message⟩] := by
  by_cases h1 : pyStrip payload.user_id = ""
  · simp [handle_turn, h1] at hok
  by_cases h2 : pyStrip payload.message = ""
  · simp [handle_turn, h1, h2] at hok
  by_cases h3 : isCritical (pyStrip payload.message) = true
  · have hp := persistStep_user_fail env (pyStrip payload.user_id)
      (pyStrip payload.message) CRITICAL_RESPONSE_MESSAGE e hfail
    simp [handle_turn, h1, h2, h3, hp, Event.isSave]
  · rcases hg : get_or_create_user env (pyStrip payload.user_id) with
      ⟨res, evs⟩
    have hevs := get_or_create_user_events env (pyStrip payload.user_id)
    rw [hg] at hevs
    cases res with
    | error e2 => simp [handle_turn, h1, h2, h3, hg] at hok
    | ok profile =>
      cases hh : env.get_chat_history (pyStrip payload.user_id) with
      | error e2 => simp [handle_turn, h1, h2, h3, hg, hh] at hok
      | ok history =>
        cases ha : env.get_ai_response (pyStrip payload.message) profile
            history with
        | error e2 => simp [handle_turn, h1, h2, h3, hg, hh, ha] at hok
        | ok txt2 =>
          have hp := persistStep_user_fail env (pyStrip payload.user_id)
            (pyStrip payload.message) txt2 e hfail
          have hfil : evs.filter Event.isSave = [] :=
            List.filter_eq_nil_iff.mpr fun a ha2 => by
              simp [(hevs a ha2).1]
          simp [handle_turn, h1, h2, h3, hg, hh, ha, hp,
            List.filter_append, hfil, Event.isSave]

/-- **C10** witness: with every write raising, the trace of a successful turn
holds exactly one write — the user message — and the response is still the
stub AI's text. -/
theorem C10_witness :
    (handle_turn envSaveFail ⟨"u1", "What foods help with diabetes?"⟩).2.filter
        Event.isSave =
      [.saveChatMessage
        ⟨"u1", "user", "What foods help with diabetes?"⟩] := by
  have h := C10_bot_write_skipped envSaveFail
    ⟨"u1", "What foods help with diabetes?"⟩ "Try more fiber." "db down"
    rfl rfl
  exact h

/-- **C6**: the chat-message writes of a turn are, in order: nothing (the
turn failed before persistence), the user message alone (its write raised),
or the user message then the bot message — the user write always first, both
tagged with the turn's identifier, the user write carrying the trimmed
message and the bot write carrying the returned response text. -/
theorem C6_user_write_before_bot_write (env : Env) (payload : ChatRequest) :
    (handle_turn env payload).2.filter Event.isSave = [] ∨
    ∃ txt, (handle_turn env payload).1 = .ok ⟨txt⟩ ∧
      ((handle_turn env payload).2.filter Event.isSave =
        [.saveChatMessage
          ⟨pyStrip payload.user_id, "user", pyStrip payload.message⟩] ∨
       (handle_turn env payload).2.filter Event.isSave =
        [.saveChatMessage
          ⟨pyStrip payload.user_id, "user", pyStrip payload.message⟩,
         .saveChatMessage ⟨pyStrip payload.user_id, "bot", txt⟩]) := by
  by_cases h1 : pyStrip payload.user_id = ""
  · left; simp [handle_turn, h1]
  by_cases h2 : pyStrip payload.message = ""
  · left; simp [handle_turn, h1, h2]
  by_cases h3 : isCritical (pyStrip payload.message) = true
  · right
    refine ⟨CRITICAL_RESPONSE_MESSAGE, by simp [handle_turn, h1, h2, h3], ?_⟩
    rcases persistStep_shape env (pyStrip payload.user_id)
        (pyStrip payload.message) CRITICAL_RESPONSE_MESSAGE with h | h
    · left; simp [handle_turn, h1, h2, h3, h, Event.isSave]
    · right; simp [handle_turn, h1, h2, h3, h, Event.isSave]
  · rcases hg : get_or_create_user env (pyStrip payload.user_id) with
      ⟨res, evs⟩
    have hevs := get_or_create_user_events env (pyStrip payload.user_id)
    rw [hg] at hevs
    have hfil : evs.filter Event.isSave = [] :=
      List.filter_eq_nil_iff.mpr fun a ha2 => by simp [(hevs a ha2).1]
    cases res with
    | error e => left; simp [handle_turn, h1, h2, h3, hg, hfil]
    | ok profile =>
      cases hh : env.get_chat_history (pyStrip payload.user_id) with
      | error e =>
        left
        simp [handle_turn, h1, h2, h3, hg, hh, hfil, List.filter_append,
          Event.isSave]
      | ok history =>
        cases ha : env.get_ai_response (pyStrip payload.message) profile
            history with
        | error e =>
          left
          simp [handle_turn, h1, h2, h3, hg, hh, ha, hfil,
            List.filter_append, Event.isSave]
        | ok txt =>
          right
          refine ⟨txt, by simp [handle_turn, h1, h2, h3, hg, hh, ha], ?_⟩
          rcases persistStep_shape env (pyStrip payload.user_id)
              (pyStrip payload.message) txt with h | h
          · left
            simp [handle_turn, h1, h2, h3, hg, hh, ha, h, hfil,
              List.filter_append, Event.isSave]
          · right
            simp [handle_turn, h1, h2, h3, hg, hh, ha, h, hfil,
              List.filter_append, Event.isSave]

/-- Dropping a satisfied prefix across an append. -/
theorem dropWhile_append_all {α : Type} (p : α → Bool) (l1 l2 : List α)
    (h : ∀ a ∈ l1, p a = true) :
    (l1 ++ l2).dropWhile p = l2.dropWhile p := by
  induction l1 with
  | nil => rfl
  | cons a l ih =>
    simp only [List.cons_append, List.dropWhile_cons,
      h a (List.mem_cons_self a l), if_true]
    exact ih fun x hx => h x (List.mem_cons_of_mem a hx)

/-- A list every element of which satisfies the predicate drops to nil. -/
theorem dropWhile_eq_nil_of_all {α : Type} (p : α → Bool) (l : List α)
    (h : ∀ a ∈ l, p a = true) : l.dropWhile p = [] := by
  induction l with
  | nil => rfl
  | cons a l ih =>
    simp only [List.dropWhile_cons, h a (List.mem_cons_self a l), if_true]
    exact ih fun x hx => h x (List.mem_cons_of_mem a hx)

/-- **C7**: from the first chat-message write of a turn onwards, the trace
contains no history fetch and no AI call: the history used for generation is
read (and consumed) strictly before either of the turn's own messages is
written, so it cannot include them. -/
theorem C7_history_read_before_writes (env : Env) (payload : ChatRequest) :
    (((handle_turn env payload).2.dropWhile fun e => !e.isSave).all
      fun e => !e.isHistory && !e.isGen) = true := by
  have hps : ∀ uid msg txt,
      ((persistStep env uid msg txt).dropWhile fun e => !e.isSave).all
        (fun e => !e.isHistory && !e.isGen) = true := by
    intro uid msg txt
    rcases persistStep_shape env uid msg txt with h | h <;>
      simp [h, Event.isSave, Event.isHistory, Event.isGen]
  by_cases h1 : pyStrip payload.user_id = ""
  · simp [handle_turn, h1]
  by_cases h2 : pyStrip payload.message = ""
  · simp [handle_turn, h1, h2]
  by_cases h3 : isCritical (pyStrip payload.message) = true
  · have hq : (handle_turn env payload).2 =
        persistStep env (pyStrip payload.user_id) (pyStrip payload.message)
          CRITICAL_RESPONSE_MESSAGE := by
      simp [handle_turn, h1, h2, h3]
    rw [hq]
    exact hps _ _ _
  · rcases hg : get_or_create_user env (pyStrip payload.user_id) with
      ⟨res, evs⟩
    have hevs := get_or_create_user_events env (pyStrip payload.user_id)
    rw [hg] at hevs
    have hdrop : evs.dropWhile (fun e => !e.isSave) = [] :=
      dropWhile_eq_nil_of_all _ _ fun a ha => by simp [(hevs a ha).1]
    cases res with
    | error e => simp [handle_turn, h1, h2, h3, hg, hdrop]
    | ok profile =>
      cases hh : env.get_chat_history (pyStrip payload.user_id) with
      | error e =>
        have hq : (handle_turn env payload).2 =
            evs ++ [.getChatHistory (pyStrip payload.user_id)] := by
          simp [handle_turn, h1, h2, h3, hg, hh]
        rw [hq, dropWhile_append_all _ evs _ fun a ha => by
          simp [(hevs a ha).1]]
        simp [Event.isSave, Event.isHistory, Event.isGen]
      | ok history =>
        cases ha : env.get_ai_response (pyStrip payload.message) profile
            history with
        | error e =>
          have hq : (handle_turn env payload).2 =
              evs ++ [.getChatHistory (pyStrip payload.user_id),
                .getAiResponse (pyStrip payload.message) profile history] := by
            simp [handle_turn, h1, h2, h3, hg, hh, ha]
          rw [hq, dropWhile_append_all _ evs _ fun a ha2 => by
            simp [(hevs a ha2).1]]
          simp [Event.isSave, Event.isHistory, Event.isGen]
        | ok txt =>
          have hq : (handle_turn env payload).2 =
              evs ++ ([.getChatHistory (pyStrip payload.user_id),
                .getAiResponse (pyStrip payload.message) profile history] ++
                persistStep env (pyStrip payload.user_id)
                  (pyStrip payload.message) txt) := by
            simp [handle_turn, h1, h2, h3, hg, hh, ha]
          rw [hq, dropWhile_append_all _ evs _ fun a ha2 => by
            simp [(hevs a ha2).1]]
          rw [dropWhile_append_all _ _ _ (by
            intro a ha2
            simp at ha2
            rcases ha2 with rfl | rfl <;> rfl)]
          exact hps _ _ _

/-- **C9**: on a critical turn, user resolution, history fetch and generation
are all skipped, yet persistence of the safety exchange is still attempted:
the trace starts with the user-message write and, when that write succeeds,
is exactly the user message followed by the fixed safety message — and the
result is the fixed safety message. -/
theorem C9_critical_still_persists (env : Env) (payload : ChatRequest)
    (hid : pyStrip payload.user_id ≠ "")
    (hmsg : pyStrip payload.message ≠ "")
    (hcrit : isCritical (pyStrip payload.message) = true) :
    (handle_turn env payload).1 = .ok ⟨CRITICAL_RESPONSE_MESSAGE⟩ ∧
    (∀ e ∈ (handle_turn env payload).2,
      e.isGetUser = false ∧ e.isCreateUser = false ∧ e.isHistory = false ∧
        e.isGen = false) ∧
    (handle_turn env payload).2.head? =
      some (.saveChatMessage
        ⟨pyStrip payload.user_id, "user", pyStrip payload.message⟩) ∧
    (env.save_chat_message
        ⟨pyStrip payload.user_id, "user", pyStrip payload.message⟩ =
        .ok () →
      (handle_turn env payload).2 =
        [.saveChatMessage
          ⟨pyStrip payload.user_id, "user", pyStrip payload.message⟩,
         .saveChatMessage
          ⟨pyStrip payload.user_id, "bot", CRITICAL_RESPONSE_MESSAGE⟩]) := by
  have hq : (handle_turn env payload).2 =
      persistStep env (pyStrip payload.user_id) (pyStrip payload.message)
        CRITICAL_RESPONSE_MESSAGE := by
    simp [handle_turn, hid, hmsg, hcrit]
  refine ⟨by simp [handle_turn, hid, hmsg, hcrit], ?_, ?_, ?_⟩
  · intro e he
    rw [hq] at he
    have hs := persistStep_all_save env (pyStrip payload.user_id)
      (pyStrip payload.message) CRITICAL_RESPONSE_MESSAGE e he
    exact ⟨(isSave_not_others e hs).2.1, (isSave_not_others e hs).2.2.1,
      (isSave_not_others e hs).2.2.2, (isSave_not_others e hs).1⟩
  · rw [hq]
    rcases persistStep_shape env (pyStrip payload.user_id)
        (pyStrip payload.message) CRITICAL_RESPONSE_MESSAGE with h | h <;>
      rw [h] <;> rfl
  · intro hsave
    rw [hq]
    exact persistStep_user_ok env (pyStrip payload.user_id)
      (pyStrip payload.message) CRITICAL_RESPONSE_MESSAGE hsave

/-- **C9** witness: the spec's crisis example, with every collaborator
successful — both safety-exchange writes are in the trace. -/
theorem C9_witness :
    (handle_turn envOk ⟨"u1", "I feel like I am having a heart attack"⟩).1 =
      .ok ⟨CRITICAL_RESPONSE_MESSAGE⟩ ∧
    (∀ e ∈ (handle_turn envOk
        ⟨"u1", "I feel like I am having a heart attack"⟩).2,
      e.isGetUser = false ∧ e.isCreateUser = false ∧ e.isHistory = false ∧
        e.isGen = false) ∧
    (handle_turn envOk ⟨"u1", "I feel like I am having a heart attack"⟩).2.head? =
      some (.saveChatMessage
        ⟨"u1", "user", "I feel like I am having a heart attack"⟩) ∧
    (envOk.save_chat_message
        ⟨"u1", "user", "I feel like I am having a heart attack"⟩ = .ok () →
      (handle_turn envOk ⟨"u1", "I feel like I am having a heart attack"⟩).2 =
        [.saveChatMessage
          ⟨"u1", "user", "I feel like I am having a heart attack"⟩,
         .saveChatMessage ⟨"u1", "bot", CRITICAL_RESPONSE_MESSAGE⟩]) :=
  C9_critical_still_persists envOk
    ⟨"u1", "I feel like I am having a heart attack"⟩ (by decide) (by decide)
    (by decide)

/-- **C4**: the user resolver returns a stored profile unchanged; for an
unknown identifier it constructs a profile carrying only that identifier
(every other field default), requests its persistence, and returns it; and
resolving the same identifier twice against the reference store, replaying
the first resolution's writes in between, yields the same profile. -/
theorem C4_resolver_idempotent (s : Store) (id : String)
    (ai : String → User → List ChatMessage → Except String String) :
    (∀ u, s.getUser id = some u →
      get_or_create_user (envOfStore s ai) id = (.ok u, [.getUser id])) ∧
    (s.getUser id = none →
      get_or_create_user (envOfStore s ai) id =
        (.ok { phone_number := id },
         [.getUser id, .createOrUpdateUser { phone_number := id }])) ∧
    (∀ u evs, get_or_create_user (envOfStore s ai) id = (.ok u, evs) →
      (get_or_create_user (envOfStore (applyEvents s evs) ai) id).1 =
        .ok u) := by
  refine ⟨?_, ?_, ?_⟩
  · intro u hu
    simp [get_or_create_user, envOfStore, hu]
  · intro hn
    simp [get_or_create_user, envOfStore, hn]
  · intro u evs h
    cases hu : s.getUser id with
    | some w =>
      have h1 : get_or_create_user (envOfStore s ai) id =
          (.ok w, [.getUser id]) := by
        simp [get_or_create_user, envOfStore, hu]
      rw [h1] at h
      simp only [Prod.mk.injEq, Except.ok.injEq] at h
      obtain ⟨rfl, rfl⟩ := h
      simp [get_or_create_user, envOfStore, applyEvents, applyEvent, hu]
    | none =>
      have h1 : get_or_create_user (envOfStore s ai) id =
          (.ok { phone_number := id },
           [.getUser id, .createOrUpdateUser { phone_number := id }]) := by
        simp [get_or_create_user, envOfStore, hu]
      rw [h1] at h
      simp only [Prod.mk.injEq, Except.ok.injEq] at h
      obtain ⟨rfl, rfl⟩ := h
      have hget : (applyEvents s
          [Event.getUser id,
           Event.createOrUpdateUser { phone_number := id }]).getUser id =
          some { phone_number := id } := by
        simp [applyEvents, applyEvent, Store.putUser, Store.getUser,
          List.find?]
      simp [get_or_create_user, envOfStore, hget]

/-- **C4** witness: a first contact on an empty store creates the minimal
profile and requests its persistence. -/
theorem C4_witness :
    get_or_create_user (envOfStore ⟨[], []⟩ aiStub) "u1" =
      (.ok { phone_number := "u1" },
       [.getUser "u1", .createOrUpdateUser { phone_number := "u1" }]) :=
  (C4_resolver_idempotent ⟨[], []⟩ "u1" aiStub).2.1 rfl

end ArogyaMitra
